import Mathlib

/-!
# GLRenderer JNI bindings (core/jni/android_view_GLRenderer.cpp)

A shallow embedding of the native methods of `android.view.GLRenderer`.
The bindings call into three collaborators: the EGL platform, the hwui
singletons (`Caches`, `Extensions`) and `DisplayList`.  Each collaborator is
an explicit state that is threaded through the binding, together with a log
of the calls that were made on it.

The EGL implementation itself is a parameter (`Driver`): what a call raises and
what a query writes is decided by the driver, the binding only sees the results.
-/

namespace GLRenderer

/-! ## Platform types and constants -/

abbrev EGLint := Int
abbrev EGLBoolean := Bool
abbrev EGLDisplay := Nat
abbrev EGLSurface := Nat
abbrev jint := Int
abbrev jlong := Int
abbrev jboolean := Bool

/-- Declared in EGL/egl.h (not part of this file); the Khronos value. -/
def EGL_SUCCESS : EGLint := 0x3000
/-- Declared in EGL/egl.h; the Khronos value. -/
def EGL_BAD_ALLOC : EGLint := 0x3003
/-- Declared in EGL/egl.h; the Khronos value. -/
def EGL_BAD_ATTRIBUTE : EGLint := 0x3004
/-- Declared in EGL/egl.h; the Khronos value. -/
def EGL_BAD_MATCH : EGLint := 0x3009
/-- Declared in EGL/egl.h; the Khronos value. -/
def EGL_BAD_SURFACE : EGLint := 0x300D
/-- Declared in EGL/egl.h; the Khronos value. -/
def EGL_HEIGHT : EGLint := 0x3056
/-- Declared in EGL/egl.h; the Khronos value. -/
def EGL_WIDTH : EGLint := 0x3057
/-- Declared in EGL/egl.h; the Khronos value. -/
def EGL_DRAW : EGLint := 0x3059
/-- Declared in EGL/egl.h; the Khronos value. -/
def EGL_SWAP_BEHAVIOR : EGLint := 0x3093
/-- Declared in EGL/egl.h; the Khronos value. -/
def EGL_BUFFER_PRESERVED : EGLint := 0x3094
/-- Declared in EGL/egl.h; the Khronos value. -/
def EGL_BUFFER_DESTROYED : EGLint := 0x3095

/-! ## The EGL platform -/

/-- One entry of the log of platform and runtime calls made by a binding. -/
inductive Call where
  | eglGetCurrentDisplay
  | eglGetCurrentSurface (readdraw : EGLint)
  | eglGetError
  | eglSurfaceAttrib (dpy : EGLDisplay) (surface : EGLSurface) (attr value : EGLint)
  | eglQuerySurface (dpy : EGLDisplay) (surface : EGLSurface) (attr : EGLint)
  | eglBeginFrame (dpy : EGLDisplay) (surface : EGLSurface)
  | GetIntArrayElements
  | ReleaseIntArrayElements (mode : jint)
  deriving DecidableEq, Repr

/-- What a surface query does: the error it raises (`EGL_SUCCESS` for none) and
the value it stores through its out-pointer, if it stores one. -/
structure QueryResult where
  error : EGLint
  written : Option EGLint
  deriving DecidableEq, Repr

/-- An EGL implementation over its own state `δ` (displays, surfaces, contexts).
Each fallible entry point reports the error it raises, `EGL_SUCCESS` for none.
The getters and the surface query read the state and do not change it.
`clearsOnEntry` tells whether a call that raises nothing resets the thread's
error to `EGL_SUCCESS` (the error is the status of the last call) or leaves an
earlier error pending until `eglGetError` collects it. -/
structure Driver (δ : Type) where
  clearsOnEntry : Bool
  currentDisplay : δ → EGLDisplay
  currentSurface : δ → EGLint → EGLSurface
  surfaceAttrib : δ → EGLDisplay → EGLSurface → EGLint → EGLint → EGLint × δ
  querySurface : δ → EGLDisplay → EGLSurface → EGLint → QueryResult
  beginFrame : δ → EGLDisplay → EGLSurface → EGLint × δ

/-- The state of the calling thread's EGL: the pending error (what the next
`eglGetError` returns), the driver's state, and the log of calls so far. -/
structure Platform (δ : Type) where
  error : EGLint
  driver : δ
  calls : List Call

/-- The pending error after a call that raised `raised`. -/
def nextError {δ : Type} (drv : Driver δ) (pending raised : EGLint) : EGLint :=
  if raised ≠ EGL_SUCCESS then raised
  else if drv.clearsOnEntry then EGL_SUCCESS else pending

def eglGetCurrentDisplay {δ : Type} (drv : Driver δ) (p : Platform δ) :
    EGLDisplay × Platform δ :=
  (drv.currentDisplay p.driver,
   { p with error := nextError drv p.error EGL_SUCCESS
            calls := p.calls ++ [Call.eglGetCurrentDisplay] })

def eglGetCurrentSurface {δ : Type} (drv : Driver δ) (readdraw : EGLint) (p : Platform δ) :
    EGLSurface × Platform δ :=
  (drv.currentSurface p.driver readdraw,
   { p with error := nextError drv p.error EGL_SUCCESS
            calls := p.calls ++ [Call.eglGetCurrentSurface readdraw] })

/-- Returns the pending error and resets it to `EGL_SUCCESS`. -/
def eglGetError {δ : Type} (p : Platform δ) : EGLint × Platform δ :=
  (p.error, { p with error := EGL_SUCCESS, calls := p.calls ++ [Call.eglGetError] })

def eglSurfaceAttrib {δ : Type} (drv : Driver δ) (dpy : EGLDisplay) (surface : EGLSurface)
    (attr value : EGLint) (p : Platform δ) : EGLBoolean × Platform δ :=
  let r := drv.surfaceAttrib p.driver dpy surface attr value
  (decide (r.1 = EGL_SUCCESS),
   { error := nextError drv p.error r.1
     driver := r.2
     calls := p.calls ++ [Call.eglSurfaceAttrib dpy surface attr value] })

/-- The query takes the current content of the out-variable and returns its
content after the call: the written value, or the old content when the driver
stored nothing. -/
def eglQuerySurface {δ : Type} (drv : Driver δ) (dpy : EGLDisplay) (surface : EGLSurface)
    (attr : EGLint) (value : EGLint) (p : Platform δ) :
    EGLBoolean × EGLint × Platform δ :=
  let r := drv.querySurface p.driver dpy surface attr
  (decide (r.error = EGL_SUCCESS), r.written.getD value,
   { p with error := nextError drv p.error r.error
            calls := p.calls ++ [Call.eglQuerySurface dpy surface attr] })

def eglBeginFrame {δ : Type} (drv : Driver δ) (dpy : EGLDisplay) (surface : EGLSurface)
    (p : Platform δ) : Platform δ :=
  let r := drv.beginFrame p.driver dpy surface
  { error := nextError drv p.error r.1
    driver := r.2
    calls := p.calls ++ [Call.eglBeginFrame dpy surface] }

/-! ## Surface and display management -/

/-- The binding `preserveBackBuffer`. -/
def android_view_GLRenderer_preserveBackBuffer {δ : Type} (drv : Driver δ) (p : Platform δ) :
    jboolean × Platform δ :=
  let (display, p) := eglGetCurrentDisplay drv p
  let (surface, p) := eglGetCurrentSurface drv EGL_DRAW p
  let (_, p) := eglGetError p
  let (_, p) := eglSurfaceAttrib drv display surface EGL_SWAP_BEHAVIOR EGL_BUFFER_PRESERVED p
  let (error, p) := eglGetError p
  (decide (error = EGL_SUCCESS), p)

/-- The binding `isBackBufferPreserved`.  `uninit` is the indeterminate content
of the local `value` before the query. -/
def android_view_GLRenderer_isBackBufferPreserved {δ : Type} (drv : Driver δ)
    (uninit : EGLint) (p : Platform δ) : jboolean × Platform δ :=
  let (display, p) := eglGetCurrentDisplay drv p
  let (surface, p) := eglGetCurrentSurface drv EGL_DRAW p
  let value := uninit
  let (_, p) := eglGetError p
  let (_, value, p) := eglQuerySurface drv display surface EGL_SWAP_BEHAVIOR value p
  let (error, p) := eglGetError p
  (decide (error = EGL_SUCCESS) && decide (value = EGL_BUFFER_PRESERVED), p)

/-! ## Tracing and debugging -/

/-- One entry of the log of calls made on the `Caches` singleton. -/
inductive CachesCall where
  | hasInstance
  | getInstance
  | construct
  | initProperties
  deriving DecidableEq, Repr

/-- The `Caches` class (libs/hwui/Caches.h, not part of this file) over its own
representation `κ`: its constructor and its property reload. -/
structure CachesImpl (κ : Type) where
  construct : κ
  initProperties : κ → Bool × κ

/-- The singleton slot `Singleton<Caches>::sInstance` and the log of calls. -/
structure CachesState (κ : Type) where
  sInstance : Option κ
  calls : List CachesCall

/-- Modelled from the spec: `Caches::hasInstance` (utils/Singleton.h is not among
the sources) tells whether the lazily initialized singleton exists; it creates
nothing. -/
def uirenderer.Caches.hasInstance {κ : Type} (s : CachesState κ) : Bool × CachesState κ :=
  (s.sInstance.isSome, { s with calls := s.calls ++ [CachesCall.hasInstance] })

/-- Modelled from the spec: `Caches::getInstance` (utils/Singleton.h is not among
the sources) returns the singleton, constructing it on first use. -/
def uirenderer.Caches.getInstance {κ : Type} (impl : CachesImpl κ) (s : CachesState κ) :
    κ × CachesState κ :=
  match s.sInstance with
  | some c => (c, { s with calls := s.calls ++ [CachesCall.getInstance] })
  | none =>
    (impl.construct,
     { sInstance := some impl.construct
       calls := s.calls ++ [CachesCall.getInstance, CachesCall.construct] })

/-- The call `caches.initProperties()` on the singleton `caches`: the reload runs
on the instance and the instance keeps what the reload did to it. -/
def uirenderer.Caches.initProperties {κ : Type} (impl : CachesImpl κ) (caches : κ)
    (s : CachesState κ) : Bool × CachesState κ :=
  let r := impl.initProperties caches
  (r.1, { sInstance := some r.2, calls := s.calls ++ [CachesCall.initProperties] })

/-- The binding `loadProperties`. -/
def android_view_GLRenderer_loadProperties {κ : Type} (impl : CachesImpl κ)
    (s : CachesState κ) : Bool × CachesState κ :=
  let (has, s) := uirenderer.Caches.hasInstance s
  if has then
    let (caches, s) := uirenderer.Caches.getInstance impl s
    uirenderer.Caches.initProperties impl caches s
  else
    (false, s)

/-- Declared in jni.h; release mode that frees the buffer without copying back. -/
def JNI_ABORT : jint := 2

/-- The runtime hands out the elements of the array. -/
def GetIntArrayElements {δ : Type} (array : List jint) (p : Platform δ) :
    List jint × Platform δ :=
  (array, { p with calls := p.calls ++ [Call.GetIntArrayElements] })

/-- The runtime takes the elements back: unless the mode is `JNI_ABORT` the
array holds the content of the buffer afterwards. -/
def ReleaseIntArrayElements {δ : Type} (array elems : List jint) (mode : jint)
    (p : Platform δ) : List jint × Platform δ :=
  (if mode = JNI_ABORT then array else elems,
   { p with calls := p.calls ++ [Call.ReleaseIntArrayElements mode] })

/-- The assignment `storage[i] = v`; a store outside the buffer is a fault. -/
def store (storage : List jint) (i : Nat) (v : jint) : Option (List jint) :=
  if i < storage.length then some (storage.set i v) else none

/-- The binding `beginFrame`.  `size` is `none` for a null array; `uninit` is the
indeterminate content of the local `value`.  The result is the array after the
call and the platform, or `none` when a store faults. -/
def android_view_GLRenderer_beginFrame {δ : Type} (drv : Driver δ) (uninit : EGLint)
    (size : Option (List jint)) (p : Platform δ) :
    Option (Option (List jint) × Platform δ) :=
  let (display, p) := eglGetCurrentDisplay drv p
  let (surface, p) := eglGetCurrentSurface drv EGL_DRAW p
  match size with
  | some array => do
    let value := uninit
    let (storage, p) := GetIntArrayElements array p
    let (_, value, p) := eglQuerySurface drv display surface EGL_WIDTH value p
    let storage ← store storage 0 value
    let (_, value, p) := eglQuerySurface drv display surface EGL_HEIGHT value p
    let storage ← store storage 1 value
    let (array, p) := ReleaseIntArrayElements array storage 0 p
    pure (some array, eglBeginFrame drv display surface p)
  | none =>
    some (none, eglBeginFrame drv display surface p)

/-! ### System time -/

/-- One entry of the log of calls made by `getSystemTime`. -/
inductive TimeCall where
  | hasNvSystemTime
  | eglGetSystemTimeNV
  | systemTime (clock : Int)
  deriving DecidableEq, Repr

/-- Declared in utils/Timers.h (not part of this file). -/
def SYSTEM_TIME_MONOTONIC : Int := 1

/-- The time sources over their own state `τ`: the capability flag of the
extensions registry, the vendor clock (an unsigned 64-bit `EGLuint64NV`) and
the system clock (a signed 64-bit `nsecs_t`). -/
structure TimeSources (τ : Type) where
  hasNvSystemTime : τ → Bool
  eglGetSystemTimeNV : τ → Nat × τ
  systemTime : τ → Int → Int × τ

/-- The state of the time sources and the log of calls. -/
structure Clock (τ : Type) where
  state : τ
  calls : List TimeCall

def uirenderer.Extensions.hasNvSystemTime {τ : Type} (src : TimeSources τ) (c : Clock τ) :
    Bool × Clock τ :=
  (src.hasNvSystemTime c.state, { c with calls := c.calls ++ [TimeCall.hasNvSystemTime] })

def eglGetSystemTimeNV {τ : Type} (src : TimeSources τ) (c : Clock τ) : Nat × Clock τ :=
  let r := src.eglGetSystemTimeNV c.state
  (r.1, { state := r.2, calls := c.calls ++ [TimeCall.eglGetSystemTimeNV] })

def systemTime {τ : Type} (src : TimeSources τ) (clock : Int) (c : Clock τ) : Int × Clock τ :=
  let r := src.systemTime c.state clock
  (r.1, { state := r.2, calls := c.calls ++ [TimeCall.systemTime clock] })

/-- The conversion of the `EGLuint64NV` result to the `jlong` return type: the
same 64-bit word read as a signed integer. -/
def jlong_of_EGLuint64NV (v : Nat) : Int :=
  if v % 2 ^ 64 < 2 ^ 63 then ((v % 2 ^ 64 : Nat) : Int)
  else ((v % 2 ^ 64 : Nat) : Int) - 2 ^ 64

/-- The binding `getSystemTime`. -/
def android_view_GLRenderer_getSystemTime {τ : Type} (src : TimeSources τ) (c : Clock τ) :
    jlong × Clock τ :=
  let (nv, c) := uirenderer.Extensions.hasNvSystemTime src c
  if nv then
    let (t, c) := eglGetSystemTimeNV src c
    (jlong_of_EGLuint64NV t, c)
  else
    systemTime src SYSTEM_TIME_MONOTONIC c

/-! ### Display lists -/

/-- The display lists in native memory: for the `DisplayList` at each address
the data it references, and the log of `setData` calls (receiver, argument). -/
structure DisplayLists where
  data : jlong → jlong
  calls : List (jlong × jlong)

/-- The cast of a handle to a native pointer.  Handles are address-sized, so the
pointer is the handle. -/
def reinterpret_cast (handle : jlong) : jlong := handle

/-- Modelled from the spec: `DisplayList::setData` (libs/hwui/DisplayList.h is not
among the sources) replaces the data currently referenced by the display list
with `newData`. -/
def uirenderer.DisplayList.setData (displayList newData : jlong) (h : DisplayLists) :
    DisplayLists :=
  { data := fun a => if a = displayList then newData else h.data a
    calls := h.calls ++ [(displayList, newData)] }

/-- The binding `nSwapDisplayListData`. -/
def android_view_GLRenderer_swapDisplayListData (displayListPtr newDataPtr : jlong)
    (h : DisplayLists) : DisplayLists :=
  let displayList := reinterpret_cast displayListPtr
  let newData := reinterpret_cast newDataPtr
  uirenderer.DisplayList.setData displayList newData h

/-! ## Reference drivers

Two small EGL implementations used to evaluate the bindings on concrete
platforms. -/

/-- The attributes of a surface; `preservable` tells whether its config allows
the preserved swap behaviour. -/
structure SimSurface where
  width : EGLint
  height : EGLint
  swapBehavior : EGLint
  preservable : Bool
  deriving DecidableEq, Repr

/-- A platform with one display and at most one current draw surface. -/
structure SimState where
  display : EGLDisplay
  draw : EGLSurface
  surface : Option SimSurface
  deriving DecidableEq, Repr

def simSurfaceAttrib (s : SimState) (_dpy : EGLDisplay) (surface : EGLSurface)
    (attr value : EGLint) : EGLint × SimState :=
  match s.surface with
  | none => (EGL_BAD_SURFACE, s)
  | some sf =>
    if surface ≠ s.draw then (EGL_BAD_SURFACE, s)
    else if attr ≠ EGL_SWAP_BEHAVIOR then (EGL_BAD_ATTRIBUTE, s)
    else if value = EGL_BUFFER_PRESERVED ∧ sf.preservable = false then (EGL_BAD_MATCH, s)
    else (EGL_SUCCESS, { s with surface := some { sf with swapBehavior := value } })

def simQuerySurface (s : SimState) (_dpy : EGLDisplay) (surface : EGLSurface)
    (attr : EGLint) : QueryResult :=
  match s.surface with
  | none => ⟨EGL_BAD_SURFACE, none⟩
  | some sf =>
    if surface ≠ s.draw then ⟨EGL_BAD_SURFACE, none⟩
    else if attr = EGL_WIDTH then ⟨EGL_SUCCESS, some sf.width⟩
    else if attr = EGL_HEIGHT then ⟨EGL_SUCCESS, some sf.height⟩
    else if attr = EGL_SWAP_BEHAVIOR then ⟨EGL_SUCCESS, some sf.swapBehavior⟩
    else ⟨EGL_BAD_ATTRIBUTE, none⟩

/-- A driver that keeps the attributes of the current draw surface. -/
def simDriver (clears : Bool) : Driver SimState where
  clearsOnEntry := clears
  currentDisplay := fun s => s.display
  currentSurface := fun s _ => s.draw
  surfaceAttrib := simSurfaceAttrib
  querySurface := simQuerySurface
  beginFrame := fun s _ _ => (EGL_SUCCESS, s)

/-- A stateless driver whose calls have fixed outcomes: `attribError` is raised
by every attribute change, `query` gives the outcome of a query by attribute. -/
def fixedDriver (clears : Bool) (attribError : EGLint) (query : EGLint → QueryResult) :
    Driver Unit where
  clearsOnEntry := clears
  currentDisplay := fun _ => 1
  currentSurface := fun _ _ => 7
  surfaceAttrib := fun _ _ _ _ _ => (attribError, ())
  querySurface := fun _ _ _ attr => query attr
  beginFrame := fun _ _ _ => (EGL_SUCCESS, ())

/-- A driver whose width query gives 800 and whose height query fails with
`EGL_BAD_SURFACE` without storing. -/
def heightlessDriver : Driver Unit :=
  fixedDriver false EGL_SUCCESS
    (fun a => if a = EGL_WIDTH then ⟨EGL_SUCCESS, some 800⟩ else ⟨EGL_BAD_SURFACE, none⟩)

/-- A window surface of 800 by 480 whose config allows preserved buffers. -/
def simWindow : SimState :=
  { display := 1, draw := 7,
    surface := some { width := 800, height := 480,
                      swapBehavior := EGL_BUFFER_DESTROYED, preservable := true } }

/-- Time sources whose registry reports the NV capability and whose vendor clock
reads 2^63; the system clock reads 5. -/
def highVendorClock : TimeSources Unit where
  hasNvSystemTime := fun _ => true
  eglGetSystemTimeNV := fun _ => (2 ^ 63, ())
  systemTime := fun _ _ => (5, ())

/-! ## Properties of the surface, as the driver reports them -/

/-- The outcome of querying attribute `attr` of the current draw surface. -/
def drawSurfaceQuery {δ : Type} (drv : Driver δ) (d : δ) (attr : EGLint) : QueryResult :=
  drv.querySurface d (drv.currentDisplay d) (drv.currentSurface d EGL_DRAW) attr

/-- The error raised by the attempt to set the swap behaviour of the current
draw surface to preserved. -/
def preserveAttempt {δ : Type} (drv : Driver δ) (d : δ) : EGLint × δ :=
  drv.surfaceAttrib d (drv.currentDisplay d) (drv.currentSurface d EGL_DRAW)
    EGL_SWAP_BEHAVIOR EGL_BUFFER_PRESERVED

/-- Buffer preservation is supported in state `d`: setting the swap behaviour of
the current draw surface to preserved raises nothing, and the query of the swap
behaviour in the state it leaves succeeds with the preserved value. -/
def PreservationSupported {δ : Type} (drv : Driver δ) (d : δ) : Prop :=
  (preserveAttempt drv d).1 = EGL_SUCCESS ∧
    drawSurfaceQuery drv (preserveAttempt drv d).2 EGL_SWAP_BEHAVIOR =
      ⟨EGL_SUCCESS, some EGL_BUFFER_PRESERVED⟩

instance {δ : Type} (drv : Driver δ) (d : δ) : Decidable (PreservationSupported drv d) := by
  unfold PreservationSupported
  exact inferInstance

/-! ## Theorems -/

/-- The pending error is `EGL_SUCCESS` after a call that raised nothing on a
thread whose error was already collected. -/
theorem nextError_success {δ : Type} (drv : Driver δ) (raised : EGLint) :
    nextError drv EGL_SUCCESS raised = raised := by
  unfold nextError
  by_cases h : raised = EGL_SUCCESS
  · simp [h]
  · simp [h]

/-- C1: whatever error is pending when it is called, `preserveBackBuffer` returns
true exactly when the attempt to set the swap behaviour of the current draw
surface to preserved raised no error; the pending error is collected by an
`eglGetError` call made before the attempt. -/
theorem preserveBackBuffer_true_iff {δ : Type} (drv : Driver δ) (pending : EGLint)
    (d : δ) (log : List Call) :
    ((android_view_GLRenderer_preserveBackBuffer drv ⟨pending, d, log⟩).1 = true ↔
      (preserveAttempt drv d).1 = EGL_SUCCESS) ∧
    (android_view_GLRenderer_preserveBackBuffer drv ⟨pending, d, log⟩).2.calls =
      log ++ [Call.eglGetCurrentDisplay, Call.eglGetCurrentSurface EGL_DRAW,
        Call.eglGetError,
        Call.eglSurfaceAttrib (drv.currentDisplay d) (drv.currentSurface d EGL_DRAW)
          EGL_SWAP_BEHAVIOR EGL_BUFFER_PRESERVED,
        Call.eglGetError] := by
  constructor
  · simp [android_view_GLRenderer_preserveBackBuffer, eglGetCurrentDisplay,
      eglGetCurrentSurface, eglGetError, eglSurfaceAttrib, preserveAttempt, nextError_success]
  · simp [android_view_GLRenderer_preserveBackBuffer, eglGetCurrentDisplay,
      eglGetCurrentSurface, eglGetError, eglSurfaceAttrib]

/-- C2: `isBackBufferPreserved` returns true exactly when the swap-behaviour query
on the current draw surface raises no error and the out-value after it is the
preserved value; when the query raises an error the result is false for every
content of the out-value. -/
theorem isBackBufferPreserved_true_iff {δ : Type} (drv : Driver δ) (uninit pending : EGLint)
    (d : δ) (log : List Call) :
    ((android_view_GLRenderer_isBackBufferPreserved drv uninit ⟨pending, d, log⟩).1 = true ↔
      (drawSurfaceQuery drv d EGL_SWAP_BEHAVIOR).error = EGL_SUCCESS ∧
        (drawSurfaceQuery drv d EGL_SWAP_BEHAVIOR).written.getD uninit
          = EGL_BUFFER_PRESERVED) ∧
    ((drawSurfaceQuery drv d EGL_SWAP_BEHAVIOR).error ≠ EGL_SUCCESS →
      (android_view_GLRenderer_isBackBufferPreserved drv uninit ⟨pending, d, log⟩).1
        = false) := by
  constructor
  · simp [android_view_GLRenderer_isBackBufferPreserved, eglGetCurrentDisplay,
      eglGetCurrentSurface, eglGetError, eglQuerySurface, drawSurfaceQuery, nextError_success]
  · intro h
    simp [android_view_GLRenderer_isBackBufferPreserved, eglGetCurrentDisplay,
      eglGetCurrentSurface, eglGetError, eglQuerySurface, drawSurfaceQuery, nextError_success]
    intro h'
    exact absurd h' (by simpa [drawSurfaceQuery] using h)

/-- C2 at a driver whose query fails without storing, with an out-value that
happens to hold the preserved value: the result is false. -/
theorem isBackBufferPreserved_true_iff_witness :
    (android_view_GLRenderer_isBackBufferPreserved
      (fixedDriver false EGL_SUCCESS (fun _ => ⟨EGL_BAD_SURFACE, none⟩))
      EGL_BUFFER_PRESERVED ⟨EGL_SUCCESS, (), []⟩).1 = false :=
  (isBackBufferPreserved_true_iff
    (fixedDriver false EGL_SUCCESS (fun _ => ⟨EGL_BAD_SURFACE, none⟩))
    EGL_BUFFER_PRESERVED EGL_SUCCESS () []).2 (by decide)

/-- C3: where buffer preservation is supported, `preserveBackBuffer` returns true
and an `isBackBufferPreserved` call made right after it returns true. -/
theorem preserve_then_isBackBufferPreserved {δ : Type} (drv : Driver δ) (uninit : EGLint)
    (p : Platform δ) (h : PreservationSupported drv p.driver) :
    (android_view_GLRenderer_preserveBackBuffer drv p).1 = true ∧
      (android_view_GLRenderer_isBackBufferPreserved drv uninit
        (android_view_GLRenderer_preserveBackBuffer drv p).2).1 = true := by
  obtain ⟨h1, h2⟩ := h
  simp only [preserveAttempt, drawSurfaceQuery] at h1 h2
  simp [android_view_GLRenderer_preserveBackBuffer,
    android_view_GLRenderer_isBackBufferPreserved, eglGetCurrentDisplay,
    eglGetCurrentSurface, eglGetError, eglSurfaceAttrib, eglQuerySurface,
    nextError_success, h1, h2]

/-- C3 on a window surface whose config allows preserved buffers, called with an
error pending. -/
theorem preserve_then_isBackBufferPreserved_witness :
    PreservationSupported (simDriver false) simWindow ∧
      (android_view_GLRenderer_preserveBackBuffer (simDriver false)
        ⟨EGL_BAD_ALLOC, simWindow, []⟩).1 = true ∧
      (android_view_GLRenderer_isBackBufferPreserved (simDriver false) 0
        (android_view_GLRenderer_preserveBackBuffer (simDriver false)
          ⟨EGL_BAD_ALLOC, simWindow, []⟩).2).1 = true :=
  ⟨by decide,
   preserve_then_isBackBufferPreserved (simDriver false) 0 ⟨EGL_BAD_ALLOC, simWindow, []⟩
     (by decide)⟩

/-- The log of a `beginFrame` call that was given an array. -/
theorem beginFrame_some_eq {δ : Type} (drv : Driver δ) (uninit : EGLint) (size : List jint)
    (p : Platform δ) (a b : EGLint) (hlen : 2 ≤ size.length)
    (ha : (drawSurfaceQuery drv p.driver EGL_WIDTH).written.getD uninit = a)
    (hb : (drawSurfaceQuery drv p.driver EGL_HEIGHT).written.getD a = b) :
    (android_view_GLRenderer_beginFrame drv uninit (some size) p).map
        (fun r => (r.1, r.2.calls)) =
      some (some (a :: b :: size.drop 2),
        p.calls ++ [Call.eglGetCurrentDisplay, Call.eglGetCurrentSurface EGL_DRAW,
          Call.GetIntArrayElements,
          Call.eglQuerySurface (drv.currentDisplay p.driver)
            (drv.currentSurface p.driver EGL_DRAW) EGL_WIDTH,
          Call.eglQuerySurface (drv.currentDisplay p.driver)
            (drv.currentSurface p.driver EGL_DRAW) EGL_HEIGHT,
          Call.ReleaseIntArrayElements 0,
          Call.eglBeginFrame (drv.currentDisplay p.driver)
            (drv.currentSurface p.driver EGL_DRAW)]) := by
  obtain ⟨x, rest, rfl⟩ : ∃ x rest, size = x :: rest := by
    cases size with
    | nil => simp at hlen
    | cons x rest => exact ⟨x, rest, rfl⟩
  obtain ⟨y, rest, rfl⟩ : ∃ y rest', rest = y :: rest' := by
    cases rest with
    | nil => simp at hlen
    | cons y rest' => exact ⟨y, rest', rfl⟩
  simp only [drawSurfaceQuery] at ha hb
  simp [android_view_GLRenderer_beginFrame, eglGetCurrentDisplay, eglGetCurrentSurface,
    GetIntArrayElements, ReleaseIntArrayElements, eglQuerySurface, eglBeginFrame, store,
    JNI_ABORT, ha, hb]

/-- C4: when the current draw surface reports width `W` and height `H`,
`beginFrame` with an array of at least two elements leaves `W` in element 0 and
`H` in element 1 and the other elements as they were; a two-element array is
`[W, H]` afterwards. -/
theorem beginFrame_writes_size {δ : Type} (drv : Driver δ) (uninit : EGLint)
    (size : List jint) (p : Platform δ) (W H : EGLint) (hlen : 2 ≤ size.length)
    (hW : drawSurfaceQuery drv p.driver EGL_WIDTH = ⟨EGL_SUCCESS, some W⟩)
    (hH : drawSurfaceQuery drv p.driver EGL_HEIGHT = ⟨EGL_SUCCESS, some H⟩) :
    (android_view_GLRenderer_beginFrame drv uninit (some size) p).map (fun r => r.1) =
        some (some (W :: H :: size.drop 2)) ∧
      (size.length = 2 →
        (android_view_GLRenderer_beginFrame drv uninit (some size) p).map (fun r => r.1) =
          some (some [W, H])) := by
  have key := beginFrame_some_eq drv uninit size p W H hlen (by simp [hW]) (by simp [hH])
  have h1 : (android_view_GLRenderer_beginFrame drv uninit (some size) p).map (fun r => r.1) =
      some (some (W :: H :: size.drop 2)) := by
    have := congrArg (Option.map Prod.fst) key
    simpa [Option.map_map, Function.comp_def] using this
  refine ⟨h1, fun h2 => ?_⟩
  rw [h1, List.drop_of_length_le (le_of_eq h2)]

/-- C4 on a window surface of 800 by 480. -/
theorem beginFrame_writes_size_witness :
    (2 ≤ [(0 : jint), 0].length ∧
      drawSurfaceQuery (simDriver true) simWindow EGL_WIDTH = ⟨EGL_SUCCESS, some 800⟩ ∧
      drawSurfaceQuery (simDriver true) simWindow EGL_HEIGHT = ⟨EGL_SUCCESS, some 480⟩) ∧
    (android_view_GLRenderer_beginFrame (simDriver true) 0 (some [0, 0])
        ⟨EGL_SUCCESS, simWindow, []⟩).map (fun r => r.1) = some (some [800, 480]) :=
  ⟨by decide,
   (beginFrame_writes_size (simDriver true) 0 [0, 0] ⟨EGL_SUCCESS, simWindow, []⟩ 800 480
    (by decide) (by decide) (by decide)).2 (by decide)⟩

/-- C5: `beginFrame` with a null array returns no array, makes no surface query
and no array access, and signals frame start once, for the current display and
draw surface: the calls it makes are exactly the two getters and
`eglBeginFrame`. -/
theorem beginFrame_null {δ : Type} (drv : Driver δ) (uninit : EGLint) (p : Platform δ) :
    android_view_GLRenderer_beginFrame drv uninit none p =
      some (none,
        { error := nextError drv (nextError drv (nextError drv p.error EGL_SUCCESS)
            EGL_SUCCESS)
            (drv.beginFrame p.driver (drv.currentDisplay p.driver)
              (drv.currentSurface p.driver EGL_DRAW)).1
          driver := (drv.beginFrame p.driver (drv.currentDisplay p.driver)
              (drv.currentSurface p.driver EGL_DRAW)).2
          calls := p.calls ++ [Call.eglGetCurrentDisplay, Call.eglGetCurrentSurface EGL_DRAW,
            Call.eglBeginFrame (drv.currentDisplay p.driver)
              (drv.currentSurface p.driver EGL_DRAW)] }) := by
  simp [android_view_GLRenderer_beginFrame, eglGetCurrentDisplay, eglGetCurrentSurface,
    eglBeginFrame]

/-- C10: with an array of at least two elements, when the width query succeeds
with `W` and the height query fails without storing, `beginFrame` returns
normally, the array holds `W` in elements 0 and 1 and its other elements
unchanged, and `eglBeginFrame` is still called, last. -/
theorem beginFrame_height_query_fails {δ : Type} (drv : Driver δ) (uninit : EGLint)
    (size : List jint) (p : Platform δ) (W : EGLint) (hlen : 2 ≤ size.length)
    (hW : drawSurfaceQuery drv p.driver EGL_WIDTH = ⟨EGL_SUCCESS, some W⟩)
    (_hE : (drawSurfaceQuery drv p.driver EGL_HEIGHT).error ≠ EGL_SUCCESS)
    (hH : (drawSurfaceQuery drv p.driver EGL_HEIGHT).written = none) :
    (android_view_GLRenderer_beginFrame drv uninit (some size) p).map
        (fun r => (r.1, r.2.calls)) =
      some (some (W :: W :: size.drop 2),
        p.calls ++ [Call.eglGetCurrentDisplay, Call.eglGetCurrentSurface EGL_DRAW,
          Call.GetIntArrayElements,
          Call.eglQuerySurface (drv.currentDisplay p.driver)
            (drv.currentSurface p.driver EGL_DRAW) EGL_WIDTH,
          Call.eglQuerySurface (drv.currentDisplay p.driver)
            (drv.currentSurface p.driver EGL_DRAW) EGL_HEIGHT,
          Call.ReleaseIntArrayElements 0,
          Call.eglBeginFrame (drv.currentDisplay p.driver)
            (drv.currentSurface p.driver EGL_DRAW)]) :=
  beginFrame_some_eq drv uninit size p W W hlen (by simp [hW]) (by simp [hH])

/-- C10 on a driver whose width query gives 800 and whose height query fails
with `EGL_BAD_SURFACE`: a three-element array `[1, 2, 3]` becomes
`[800, 800, 3]`. -/
theorem beginFrame_height_query_fails_witness :
    (2 ≤ [(1 : jint), 2, 3].length ∧
      drawSurfaceQuery heightlessDriver () EGL_WIDTH = ⟨EGL_SUCCESS, some 800⟩ ∧
      (drawSurfaceQuery heightlessDriver () EGL_HEIGHT).error ≠ EGL_SUCCESS ∧
      (drawSurfaceQuery heightlessDriver () EGL_HEIGHT).written = none) ∧
    (android_view_GLRenderer_beginFrame heightlessDriver 0 (some [1, 2, 3])
        ⟨EGL_SUCCESS, (), []⟩).map (fun r => (r.1, r.2.calls)) =
      some (some [800, 800, 3],
        [Call.eglGetCurrentDisplay, Call.eglGetCurrentSurface EGL_DRAW,
          Call.GetIntArrayElements, Call.eglQuerySurface 1 7 EGL_WIDTH,
          Call.eglQuerySurface 1 7 EGL_HEIGHT, Call.ReleaseIntArrayElements 0,
          Call.eglBeginFrame 1 7]) :=
  ⟨by decide,
   beginFrame_height_query_fails heightlessDriver 0 [1, 2, 3] ⟨EGL_SUCCESS, (), []⟩ 800
     (by decide) (by decide) (by decide) (by decide)⟩

/-- C9 as stated fails: called on a window surface with `EGL_BAD_ALLOC` pending,
`isBackBufferPreserved` leaves the error state `EGL_SUCCESS`, so the surface and
error state after the call is not the one before it. -/
theorem isBackBufferPreserved_clears_pending_error :
    ¬ (((android_view_GLRenderer_isBackBufferPreserved (simDriver false) 0
          ⟨EGL_BAD_ALLOC, simWindow, []⟩).2.driver,
        (android_view_GLRenderer_isBackBufferPreserved (simDriver false) 0
          ⟨EGL_BAD_ALLOC, simWindow, []⟩).2.error) = (simWindow, EGL_BAD_ALLOC)) := by
  decide

/-- C9, amended: `isBackBufferPreserved` makes no call that changes a surface
(its calls are the two getters, the query and two `eglGetError`), the driver's
state after it is the state before it, and the pending error after it is
`EGL_SUCCESS`: the error state is as before exactly when no error was pending. -/
theorem isBackBufferPreserved_frame {δ : Type} (drv : Driver δ) (uninit : EGLint)
    (p : Platform δ) :
    (android_view_GLRenderer_isBackBufferPreserved drv uninit p).2.driver = p.driver ∧
    (android_view_GLRenderer_isBackBufferPreserved drv uninit p).2.error = EGL_SUCCESS ∧
    ((android_view_GLRenderer_isBackBufferPreserved drv uninit p).2.error = p.error ↔
      p.error = EGL_SUCCESS) ∧
    (android_view_GLRenderer_isBackBufferPreserved drv uninit p).2.calls =
      p.calls ++ [Call.eglGetCurrentDisplay, Call.eglGetCurrentSurface EGL_DRAW,
        Call.eglGetError,
        Call.eglQuerySurface (drv.currentDisplay p.driver)
          (drv.currentSurface p.driver EGL_DRAW) EGL_SWAP_BEHAVIOR,
        Call.eglGetError] := by
  refine ⟨?_, ?_, ?_, ?_⟩
  · simp [android_view_GLRenderer_isBackBufferPreserved, eglGetCurrentDisplay,
      eglGetCurrentSurface, eglGetError, eglQuerySurface]
  · simp [android_view_GLRenderer_isBackBufferPreserved, eglGetCurrentDisplay,
      eglGetCurrentSurface, eglGetError, eglQuerySurface]
  · simp [android_view_GLRenderer_isBackBufferPreserved, eglGetCurrentDisplay,
      eglGetCurrentSurface, eglGetError, eglQuerySurface, eq_comm]
  · simp [android_view_GLRenderer_isBackBufferPreserved, eglGetCurrentDisplay,
      eglGetCurrentSurface, eglGetError, eglQuerySurface]

/-- The signed reading of a 64-bit word is the word itself, modulo 2^64, and
lies in the range of `jlong`. -/
theorem jlong_of_EGLuint64NV_word (v : Nat) :
    jlong_of_EGLuint64NV v % 2 ^ 64 = ((v % 2 ^ 64 : Nat) : Int) ∧
      -(2 : Int) ^ 63 ≤ jlong_of_EGLuint64NV v ∧ jlong_of_EGLuint64NV v < 2 ^ 63 := by
  unfold jlong_of_EGLuint64NV
  have hlt : v % 2 ^ 64 < 2 ^ 64 := Nat.mod_lt _ (by norm_num)
  generalize v % 2 ^ 64 = w at hlt ⊢
  norm_num at hlt ⊢
  split_ifs with h <;> omega

/-- The signed reading of a word below 2^63 is its value. -/
theorem jlong_of_EGLuint64NV_small (v : Nat) (h : v < 2 ^ 63) :
    jlong_of_EGLuint64NV v = (v : Int) := by
  unfold jlong_of_EGLuint64NV
  have h1 : v % 2 ^ 64 = v := Nat.mod_eq_of_lt (by omega)
  rw [h1, if_pos h]

/-- The signed reading of a word from 2^63 up is its value less 2^64. -/
theorem jlong_of_EGLuint64NV_large (v : Nat) (h : 2 ^ 63 ≤ v) (h64 : v < 2 ^ 64) :
    jlong_of_EGLuint64NV v = (v : Int) - 2 ^ 64 := by
  unfold jlong_of_EGLuint64NV
  have h1 : v % 2 ^ 64 = v := Nat.mod_eq_of_lt h64
  rw [h1, if_neg (by omega)]

/-- C6 as stated fails: with the NV capability reported and a vendor reading of
2^63, `getSystemTime` reads the vendor clock and returns -2^63, not the
reading. -/
theorem getSystemTime_vendor_reading_wraps :
    highVendorClock.hasNvSystemTime () = true ∧
      (highVendorClock.eglGetSystemTimeNV ()).1 = 2 ^ 63 ∧
      (android_view_GLRenderer_getSystemTime highVendorClock ⟨(), []⟩).1 = -(2 : Int) ^ 63 ∧
      (android_view_GLRenderer_getSystemTime highVendorClock ⟨(), []⟩).1 ≠
        (((highVendorClock.eglGetSystemTimeNV ()).1 : Nat) : Int) := by
  refine ⟨rfl, rfl, ?_, ?_⟩
  · simp [android_view_GLRenderer_getSystemTime, uirenderer.Extensions.hasNvSystemTime,
      eglGetSystemTimeNV, highVendorClock, jlong_of_EGLuint64NV]
  · simp [android_view_GLRenderer_getSystemTime, uirenderer.Extensions.hasNvSystemTime,
      eglGetSystemTimeNV, highVendorClock, jlong_of_EGLuint64NV]

/-- C6, amended: `getSystemTime` asks the extensions registry once.  When it
reports the NV system-time capability the vendor clock is read once and the
system clock is not read; the result is the unsigned 64-bit reading taken as a
signed `jlong`: the reading itself when it is below 2^63, the reading less 2^64
when it is 2^63 or more, in every case the same 64-bit word within the range of
`jlong`.  Otherwise the monotonic system clock is read once, the vendor clock is
not read, and the result is its reading, unchanged. -/
theorem getSystemTime_source {τ : Type} (src : TimeSources τ) (c : Clock τ) :
    (src.hasNvSystemTime c.state = true →
      ((src.eglGetSystemTimeNV c.state).1 < 2 ^ 63 →
          (android_view_GLRenderer_getSystemTime src c).1 =
            ((src.eglGetSystemTimeNV c.state).1 : Int)) ∧
        (2 ^ 63 ≤ (src.eglGetSystemTimeNV c.state).1 →
          (src.eglGetSystemTimeNV c.state).1 < 2 ^ 64 →
          (android_view_GLRenderer_getSystemTime src c).1 =
            ((src.eglGetSystemTimeNV c.state).1 : Int) - 2 ^ 64) ∧
        ((android_view_GLRenderer_getSystemTime src c).1 % 2 ^ 64 =
            (((src.eglGetSystemTimeNV c.state).1 % 2 ^ 64 : Nat) : Int) ∧
          -(2 : Int) ^ 63 ≤ (android_view_GLRenderer_getSystemTime src c).1 ∧
          (android_view_GLRenderer_getSystemTime src c).1 < 2 ^ 63) ∧
        (android_view_GLRenderer_getSystemTime src c).2.state =
          (src.eglGetSystemTimeNV c.state).2 ∧
        (android_view_GLRenderer_getSystemTime src c).2.calls =
          c.calls ++ [TimeCall.hasNvSystemTime, TimeCall.eglGetSystemTimeNV]) ∧
    (src.hasNvSystemTime c.state = false →
      (android_view_GLRenderer_getSystemTime src c).1 =
          (src.systemTime c.state SYSTEM_TIME_MONOTONIC).1 ∧
        (android_view_GLRenderer_getSystemTime src c).2.state =
          (src.systemTime c.state SYSTEM_TIME_MONOTONIC).2 ∧
        (android_view_GLRenderer_getSystemTime src c).2.calls =
          c.calls ++ [TimeCall.hasNvSystemTime, TimeCall.systemTime SYSTEM_TIME_MONOTONIC]) := by
  constructor
  · intro h
    have e : android_view_GLRenderer_getSystemTime src c =
        (jlong_of_EGLuint64NV (src.eglGetSystemTimeNV c.state).1,
          { state := (src.eglGetSystemTimeNV c.state).2
            calls := c.calls ++ [TimeCall.hasNvSystemTime, TimeCall.eglGetSystemTimeNV] }) := by
      simp [android_view_GLRenderer_getSystemTime, uirenderer.Extensions.hasNvSystemTime,
        eglGetSystemTimeNV, h]
    rw [e]
    exact ⟨jlong_of_EGLuint64NV_small _, jlong_of_EGLuint64NV_large _,
      jlong_of_EGLuint64NV_word _, rfl, rfl⟩
  · intro h
    simp [android_view_GLRenderer_getSystemTime, uirenderer.Extensions.hasNvSystemTime,
      systemTime, h]

/-- C7: after `swapDisplayListData list newData` the display list `list`
references `newData`, every other display list references what it did before,
and the one call made is `setData` on `list` with `newData`, whatever the two
handles are. -/
theorem swapDisplayListData_sets (list newData : jlong) (h : DisplayLists) :
    (android_view_GLRenderer_swapDisplayListData list newData h).data list = newData ∧
    (∀ other : jlong, other ≠ list →
      (android_view_GLRenderer_swapDisplayListData list newData h).data other
        = h.data other) ∧
    (android_view_GLRenderer_swapDisplayListData list newData h).calls =
      h.calls ++ [(list, newData)] := by
  refine ⟨?_, ?_, ?_⟩
  · simp [android_view_GLRenderer_swapDisplayListData, uirenderer.DisplayList.setData,
      reinterpret_cast]
  · intro other hne
    simp [android_view_GLRenderer_swapDisplayListData, uirenderer.DisplayList.setData,
      reinterpret_cast, hne]
  · simp [android_view_GLRenderer_swapDisplayListData, uirenderer.DisplayList.setData,
      reinterpret_cast]

/-- C8: without a `Caches` singleton `loadProperties` returns false, leaves the
singleton absent and only calls `hasInstance`; with a singleton it returns the
result of `initProperties` on it, and the singleton is what that call left. -/
theorem loadProperties_result {κ : Type} (impl : CachesImpl κ) (s : CachesState κ) :
    (s.sInstance = none →
      (android_view_GLRenderer_loadProperties impl s).1 = false ∧
        (android_view_GLRenderer_loadProperties impl s).2.sInstance = none ∧
        (android_view_GLRenderer_loadProperties impl s).2.calls =
          s.calls ++ [CachesCall.hasInstance]) ∧
    (∀ c : κ, s.sInstance = some c →
      (android_view_GLRenderer_loadProperties impl s).1 = (impl.initProperties c).1 ∧
        (android_view_GLRenderer_loadProperties impl s).2.sInstance =
          some (impl.initProperties c).2 ∧
        (android_view_GLRenderer_loadProperties impl s).2.calls =
          s.calls ++ [CachesCall.hasInstance, CachesCall.getInstance,
            CachesCall.initProperties]) := by
  constructor
  · intro h
    simp [android_view_GLRenderer_loadProperties, uirenderer.Caches.hasInstance, h]
  · intro c h
    simp [android_view_GLRenderer_loadProperties, uirenderer.Caches.hasInstance,
      uirenderer.Caches.getInstance, uirenderer.Caches.initProperties, h]

end GLRenderer
